import Mathlib

/-!
Verification of the interview orchestration core of the `elevice` backend.

The definitions below are a shallow embedding of
`services/interview_service/langchain_agent/{langgraph_state, langgraph_nodes,
langgraph_agent}.py` (the active LangGraph-style implementation) together with
the parts of `agent_core.py` (the older parallel implementation) that the
claims compare against.

Modelling conventions:
- Python `dict`s are association lists (`Dict α`) with insertion-order
  semantics: updating an existing key keeps its position, a new key is
  appended.  This matches CPython dict iteration order.
- Python `float` scores are modelled as exact rationals (`ℚ`); every numeric
  literal in the source (75.0, 0.3, 0.6, ...) is taken at its decimal value.
- LLM calls, JSON parsing, `uuid4()` and `datetime.now()` are external
  effects; each node takes the outcome of its external calls as an explicit
  argument (`LLMReply` / `ScoringReply`), and `random.choices` is modelled by
  a caller-supplied draw function over the (name, weight) pairs the code
  builds.  Prompt texts are opaque and not modelled.
- A Python function that catches all exceptions and returns a state is total
  here; the only modelled exception source inside the nodes is the LLM call.
-/

namespace Elevice

/-- Association-list model of a Python `dict` keyed by strings. -/
abbrev Dict (α : Type) := List (String × α)

/-- `d[k]` lookup, `none` when the key is missing. -/
def dget {α : Type} : Dict α → String → Option α
  | [], _ => none
  | (k, v) :: t, key => if k = key then some v else dget t key

/-- `d.get(k, fallback)`. -/
def dgetD {α : Type} (d : Dict α) (k : String) (fb : α) : α :=
  (dget d k).getD fb

/-- `d[k] = v`: replace in place when `k` is present, append otherwise. -/
def dset {α : Type} : Dict α → String → α → Dict α
  | [], k, v => [(k, v)]
  | (k', v') :: t, k, v =>
      if k' = k then (k', v) :: t else (k', v') :: dset t k v

/-- Keys of a dict, in order. -/
def dkeys {α : Type} (d : Dict α) : List String := d.map Prod.fst

/-- Interview stages (`InterviewStage` enum in `langgraph_state.py`). -/
inductive InterviewStage where
  | opening
  | technical
  | behavioral
  | systemDesign
  | closing
  | completed
deriving DecidableEq, Repr

/-- Question strategies (`ActionType` enum in `langgraph_state.py`). -/
inductive ActionType where
  | continueStandard
  | askTechnicalDeepDive
  | askProblemSolving
  | askBehavioral
  | askSystemDesign
  | askClosing
  | endInterview
deriving DecidableEq, Repr

/-- `WeightedMetric` dataclass. -/
structure WeightedMetric where
  metric_name : String
  weight : ℚ
  target_threshold : ℚ := 75
  current_score : Option ℚ := none
deriving DecidableEq, Repr

/-- `QuestionAnswerPair` dataclass.  Timestamps are opaque strings. -/
structure QuestionAnswerPair where
  question : String
  answer : String
  timestamp : String
  score : Option ℚ := none
  metrics : Dict ℚ := []
  feedback : String := ""
  duration_seconds : Option ℚ := none
deriving DecidableEq, Repr

/-- `GranularScore` dataclass (timestamp omitted: opaque and unused). -/
structure GranularScore where
  score : ℚ
  justification : String
  strengths : List String := []
  areas_for_improvement : List String := []
deriving DecidableEq, Repr

/-- `RealtimeFeedback` dataclass (timestamp omitted: opaque and unused). -/
structure RealtimeFeedback where
  summary : String
  granular_details : Dict GranularScore := []
  coaching_focus : String := "general"
deriving DecidableEq, Repr

/-- The `InterviewState` TypedDict of `langgraph_state.py`.
`question_count` and `max_questions` are Python ints (`ℤ`). -/
structure InterviewState where
  session_id : String
  interview_type : String
  job_description : Option String
  interviewer_persona : String
  weighted_metrics : List WeightedMetric
  max_questions : ℤ
  current_question : String
  question_count : ℤ
  current_interview_stage : InterviewStage
  current_target_metric : Option String
  next_action : ActionType
  conversation_history : List QuestionAnswerPair
  flat_scores : Dict ℚ
  granular_scores : Dict GranularScore
  metric_improvement_history : Dict (List ℚ)
  weakness_tracking : Dict ℤ
  real_time_feedback : Option RealtimeFeedback
  average_score : Option ℚ
  interview_complete : Bool
  completion_reason : Option String
  overall_performance_summary : Option String
  error : Option String
deriving DecidableEq, Repr

/-- Default metric set of `create_initial_state`. -/
def default_metrics : List WeightedMetric :=
  [ { metric_name := "technical_acumen", weight := 0.35, target_threshold := 75.0 },
    { metric_name := "problem_solving", weight := 0.25, target_threshold := 70.0 },
    { metric_name := "communication", weight := 0.20, target_threshold := 80.0 },
    { metric_name := "experience_relevance", weight := 0.20, target_threshold := 70.0 } ]

/-- `create_initial_state` from `langgraph_state.py`.  `uuid4()` is passed in
as `session_id`.  Note: the default metric list is substituted only when the
argument is `None` (`none` here); an empty list is kept as-is, and no
validation of `max_questions` or the metric list is performed. -/
def create_initial_state (interview_type : String) (job_description : Option String)
    (interviewer_persona : String) (weighted_metrics : Option (List WeightedMetric))
    (max_questions : ℤ) (session_id : String) : InterviewState :=
  let metrics := match weighted_metrics with
    | none => default_metrics
    | some ms => ms
  { session_id := session_id
    interview_type := interview_type
    job_description := job_description
    interviewer_persona := interviewer_persona
    weighted_metrics := metrics
    max_questions := max_questions
    current_question := ""
    question_count := 0
    current_interview_stage := InterviewStage.opening
    current_target_metric := none
    next_action := ActionType.continueStandard
    conversation_history := []
    flat_scores := []
    granular_scores := []
    metric_improvement_history := []
    weakness_tracking := []
    real_time_feedback := none
    average_score := none
    interview_complete := false
    completion_reason := none
    overall_performance_summary := none
    error := none }

/-- Outcome of one `_invoke_llm` call: the call either raises or returns text. -/
inductive LLMReply where
  | raised (msg : String)
  | returned (text : String)
deriving DecidableEq, Repr

/-- One per-metric entry of the parsed `granular_justifications` JSON map;
all fields are optional because the python code reads them with `.get`. -/
structure GranularJson where
  score : Option ℚ := none
  justification : Option String := none
  strengths : Option (List String) := none
  areas_for_improvement : Option (List String) := none
deriving DecidableEq, Repr

/-- Parsed scoring JSON, as consumed by `score_answer` via `.get` accesses. -/
structure ScoringData where
  overall_score : Option ℚ := none
  metrics : Dict ℚ := []
  granular_justifications : Dict GranularJson := []
  turn_feedback : Option String := none
deriving DecidableEq, Repr

/-- Outcome of the scoring LLM call followed by `json.loads`. -/
inductive ScoringReply where
  | raised (msg : String)
  | unparsable
  | parsed (d : ScoringData)
deriving DecidableEq, Repr

/-- `((score - 1) / 4) * 100`: the 1-5 to 0-100 normalization used throughout. -/
def normalize_score (s : ℚ) : ℚ := (s - 1) / 4 * 100

/-- Replace the last element of a list (models mutating `history[-1]`). -/
def set_last {α : Type} (l : List α) (f : α → α) : List α :=
  match l with
  | [] => []
  | [x] => [f x]
  | x :: y :: xs => x :: set_last (y :: xs) f

/-- First configured metric name, `"technical_acumen"` when the list is empty
(`weighted_metrics[0].metric_name if weighted_metrics else "technical_acumen"`). -/
def first_metric_name (state : InterviewState) : String :=
  match state.weighted_metrics with
  | [] => "technical_acumen"
  | m :: _ => m.metric_name

/-- Fallback opening question of `initialize_interview`'s except branch. -/
def fallback_opening_question (interview_type : String) : String :=
  "Hello! I\x27m excited to interview you for the " ++ interview_type ++
    " position. Could you start by telling me about yourself and your experience with " ++
    interview_type ++ " technologies?"

/-- `InterviewNodes.initialize_interview` (Lean cannot use the exact source
name here, so it is shortened to `init_interview`). -/
def init_interview (reply : LLMReply) (state : InterviewState) : InterviewState :=
  match reply with
  | LLMReply.returned text =>
      { state with current_question := text.trim
                   question_count := 1
                   current_interview_stage := InterviewStage.opening
                   current_target_metric := some (first_metric_name state)
                   next_action := ActionType.continueStandard }
  | LLMReply.raised msg =>
      { state with current_question := fallback_opening_question state.interview_type
                   question_count := 1
                   current_interview_stage := InterviewStage.opening
                   current_target_metric := some (first_metric_name state)
                   next_action := ActionType.continueStandard
                   error := some msg }

/-- The per-metric justification entry of `_create_fallback_scoring`. -/
def fallback_granular_json : GranularJson :=
  { score := some 3
    justification := some "Unable to generate detailed scoring due to technical error."
    strengths := some ["Response provided"]
    areas_for_improvement := some ["Technical scoring error occurred"] }

/-- The `GranularScore` that `_update_state_metrics` builds from
`fallback_granular_json`. -/
def fallback_granular_score : GranularScore :=
  { score := 3
    justification := "Unable to generate detailed scoring due to technical error."
    strengths := ["Response provided"]
    areas_for_improvement := ["Technical scoring error occurred"] }

/-- `InterviewNodes._create_fallback_scoring`. -/
def create_fallback_scoring (metrics_list : List String) : ScoringData :=
  { overall_score := some 60
    metrics := metrics_list.map (fun m => (m, (3 : ℚ)))
    granular_justifications := metrics_list.map (fun m => (m, fallback_granular_json))
    turn_feedback := some "Thank you for your response. Please continue with the next question." }

/-- `InterviewNodes._update_state_metrics`. -/
def update_state_metrics (state : InterviewState) (d : ScoringData) : InterviewState :=
  let flat := d.metrics.foldl (fun fs p => dset fs p.1 (normalize_score p.2)) state.flat_scores
  let gran := d.granular_justifications.foldl (fun gs p => dset gs p.1
      { score := p.2.score.getD 3
        justification := p.2.justification.getD ""
        strengths := p.2.strengths.getD []
        areas_for_improvement := p.2.areas_for_improvement.getD [] }) state.granular_scores
  let hist := d.metrics.foldl
      (fun h p => dset h p.1 ((dget h p.1).getD [] ++ [normalize_score p.2]))
      state.metric_improvement_history
  let wms := state.weighted_metrics.map (fun w =>
      match dget flat w.metric_name with
      | some v => { w with current_score := some v }
      | none => w)
  let avg := if state.conversation_history = [] then state.average_score
    else
      let scores := state.conversation_history.filterMap (fun qa => qa.score)
      if scores = [] then state.average_score
      else some (scores.sum / (scores.length : ℚ))
  { state with flat_scores := flat
               granular_scores := gran
               metric_improvement_history := hist
               weighted_metrics := wms
               average_score := avg }

/-- Lines 172-178 of `score_answer`: write the scoring data into the last
Q&A pair, then `_update_state_metrics`. -/
def apply_scoring_data (state : InterviewState) (d : ScoringData) : InterviewState :=
  let scored := set_last state.conversation_history (fun qa =>
    { qa with score := some (d.overall_score.getD 50)
              metrics := d.metrics
              feedback := d.turn_feedback.getD "" })
  update_state_metrics { state with conversation_history := scored } d

/-- `InterviewNodes.score_answer`.  A raised LLM call hits the outer `except`
before any state mutation; an unparsable reply substitutes the fallback data. -/
def score_answer (reply : ScoringReply) (state : InterviewState) : InterviewState :=
  if state.conversation_history = [] then state
  else
    match reply with
    | ScoringReply.raised msg => { state with error := some msg }
    | ScoringReply.unparsable =>
        apply_scoring_data state
          (create_fallback_scoring (state.weighted_metrics.map (fun m => m.metric_name)))
    | ScoringReply.parsed d => apply_scoring_data state d

/-- `InterviewNodes._identify_coaching_focus`: first metric of minimal flat
score (`min` over dict items keeps the first minimum). -/
def identify_coaching_focus (state : InterviewState) : String :=
  match state.flat_scores with
  | [] => "general"
  | p :: ps => (ps.foldl (fun best q => if q.2 < best.2 then q else best) p).1

/-- `InterviewNodes.generate_feedback`. -/
def generate_feedback (reply : LLMReply) (state : InterviewState) : InterviewState :=
  if state.conversation_history = [] then state
  else
    match reply with
    | LLMReply.returned text =>
        { state with real_time_feedback := some {
            summary := text.trim
            granular_details := state.granular_scores
            coaching_focus := identify_coaching_focus state } }
    | LLMReply.raised _ =>
        { state with real_time_feedback := some {
            summary := "Thank you for your response. Please continue with the next question."
            granular_details := []
            coaching_focus := "general" } }

/-- The banded inverse-performance weight of `_weighted_metric_selection`. -/
def metric_band_weight (current_score : ℚ) : ℚ :=
  if current_score ≤ 20 then 10
  else if current_score ≤ 40 then 5
  else if current_score ≤ 60 then 2
  else if current_score ≤ 80 then 0.5
  else 0.1

/-- The (name, weight) pairs built by the selection loop of
`_weighted_metric_selection` (the source keeps two parallel lists). -/
def selection_weights (state : InterviewState) : List (String × ℚ) :=
  state.weighted_metrics.map (fun m =>
    let current_score := dgetD state.flat_scores m.metric_name 50
    let w := metric_band_weight current_score
    let times_addressed := dgetD state.weakness_tracking m.metric_name 0
    (m.metric_name, if 2 < times_addressed then w * 0.3 else w))

/-- `InterviewNodes._weighted_metric_selection`; `pick` models
`random.choices(metric_names, weights=metric_weights)[0]`. -/
def weighted_metric_selection (pick : List (String × ℚ) → String)
    (state : InterviewState) : String :=
  if state.flat_scores = [] then first_metric_name state
  else
    let pairs := selection_weights state
    if pairs = [] then first_metric_name state
    else pick pairs

/-- ASCII lower-casing of one character (`str.lower()` on the ASCII strings
used as interview types). -/
def lower_char (c : Char) : Char :=
  if 65 ≤ c.toNat ∧ c.toNat ≤ 90 then Char.ofNat (c.toNat + 32) else c

/-- Whether the first list is an initial segment of the second. -/
def starts_with_chars : List Char → List Char → Bool
  | [], _ => true
  | _ :: _, [] => false
  | a :: as, b :: bs => a == b && starts_with_chars as bs

/-- Substring test on character lists (Python `in` on strings). -/
def contains_chars (pat : List Char) : List Char → Bool
  | [] => pat.isEmpty
  | c :: rest => starts_with_chars pat (c :: rest) || contains_chars pat rest

/-- `"senior" in interview_type.lower()`. -/
def contains_senior (s : String) : Bool :=
  contains_chars "senior".data (s.data.map lower_char)

/-- The base `metric_action_map` of `_determine_action_strategy`. -/
def metric_action_map (target : String) : ActionType :=
  if target = "technical_acumen" then ActionType.askTechnicalDeepDive
  else if target = "problem_solving" then ActionType.askProblemSolving
  else if target = "communication" then ActionType.askBehavioral
  else if target = "experience_relevance" then ActionType.askBehavioral
  else if target = "system_design" then ActionType.askSystemDesign
  else if target = "coding_skills" then ActionType.askTechnicalDeepDive
  else if target = "leadership" then ActionType.askBehavioral
  else ActionType.continueStandard

/-- `InterviewNodes._determine_action_strategy` with its if/elif chain of
contextual adjustments. -/
def determine_action_strategy (state : InterviewState) (target_metric : String) :
    ActionType :=
  let base := metric_action_map target_metric
  if contains_senior state.interview_type = true ∧ target_metric = "technical_acumen" then
    ActionType.askSystemDesign
  else if state.max_questions - 2 ≤ state.question_count then ActionType.askClosing
  else if state.current_interview_stage = InterviewStage.opening ∧ state.question_count ≤ 2 then
    ActionType.continueStandard
  else base

/-- `InterviewNodes.select_next_action`. -/
def select_next_action (pick : List (String × ℚ) → String)
    (state : InterviewState) : InterviewState :=
  let selected := weighted_metric_selection pick state
  let strat := determine_action_strategy state selected
  { state with current_target_metric := some selected
               next_action := strat
               weakness_tracking := dset state.weakness_tracking selected
                 (dgetD state.weakness_tracking selected 0 + 1) }

/-- `InterviewNodes._update_interview_stage`. -/
def update_interview_stage (state : InterviewState) : InterviewState :=
  if state.question_count ≤ 2 then
    { state with current_interview_stage := InterviewStage.opening }
  else if state.question_count ≤ 6 then
    { state with current_interview_stage := InterviewStage.technical }
  else if state.question_count ≤ 8 then
    { state with current_interview_stage := InterviewStage.behavioral }
  else
    { state with current_interview_stage := InterviewStage.closing }

/-- The stage-dependent canned question of `generate_question`'s except branch. -/
def fallback_question (state : InterviewState) : String :=
  if state.current_interview_stage = InterviewStage.opening then
    "Can you tell me about a challenging " ++ state.interview_type ++
      " project you\x27ve worked on recently?"
  else if state.current_interview_stage = InterviewStage.technical then
    "How would you approach designing a scalable system for " ++ state.interview_type ++ "?"
  else if state.current_interview_stage = InterviewStage.behavioral then
    "Tell me about a time when you had to work with a difficult team member. How did you handle it?"
  else
    "Do you have any questions for me about the role or the company?"

/-- `InterviewNodes.generate_question`.  On the success path the stage is
recomputed; the except branch increments the count but (as in the source)
does not call `_update_interview_stage`. -/
def generate_question (reply : LLMReply) (state : InterviewState) : InterviewState :=
  match reply with
  | LLMReply.returned text =>
      update_interview_stage
        { state with current_question := text.trim
                     question_count := state.question_count + 1 }
  | LLMReply.raised _ =>
      { state with current_question := fallback_question state
                   question_count := state.question_count + 1 }

/-- `max` of a nonempty score list (`max(recent_scores)`). -/
def list_max : List ℚ → ℚ
  | [] => 0
  | x :: xs => xs.foldl max x

/-- `min` of a nonempty score list (`min(recent_scores)`). -/
def list_min : List ℚ → ℚ
  | [] => 0
  | x :: xs => xs.foldl min x

/-- The per-metric stagnation test inside `_check_metric_stagnation`'s loop:
at least 3 history points, spread of the latest 3 below 5, and the metric
addressed at least 3 times. -/
def is_stagnant_metric (state : InterviewState) (p : String × List ℚ) : Prop :=
  3 ≤ p.2.length ∧
    list_max (p.2.drop (p.2.length - 3)) - list_min (p.2.drop (p.2.length - 3)) < 5 ∧
    (3 : ℤ) ≤ dgetD state.weakness_tracking p.1 0

instance (state : InterviewState) (p : String × List ℚ) :
    Decidable (is_stagnant_metric state p) := by
  unfold is_stagnant_metric; infer_instance

/-- The `stagnant_metrics` counter of `_check_metric_stagnation`'s loop. -/
def count_stagnant (state : InterviewState) : Dict (List ℚ) → ℕ
  | [] => 0
  | p :: t => (if is_stagnant_metric state p then 1 else 0) + count_stagnant state t

/-- `InterviewNodes._check_metric_stagnation` (textually identical to
`InterviewAgent._check_metric_stagnation` in `agent_core.py`). -/
def check_metric_stagnation (state : InterviewState) : Bool :=
  if state.metric_improvement_history = [] then false
  else if (state.weighted_metrics.length : ℚ) * 0.5 ≤
      (count_stagnant state state.metric_improvement_history : ℚ) then true
  else false

/-- The `poor_metrics` counter (`sum(1 for score in flat_scores.values() if score < 30)`). -/
def count_poor : Dict ℚ → ℕ
  | [] => 0
  | p :: t => (if p.2 < 30 then 1 else 0) + count_poor t

/-- The `should_end` / `completion_reason` computation of
`InterviewNodes.check_completion`: an if/elif chain whose second arm is
guarded by `flat_scores and len(flat_scores) >= len(weighted_metrics)` — when
that guard holds, the later elif arms are not evaluated even if the inner
saturation test fails. -/
def completion_verdict (state : InterviewState) : Option String :=
  if state.max_questions ≤ state.question_count then
    some "Maximum questions reached"
  else if state.flat_scores ≠ [] ∧ state.weighted_metrics.length ≤ state.flat_scores.length then
    if (∀ p ∈ state.flat_scores, (75 : ℚ) ≤ p.2) ∧ (4 : ℤ) ≤ state.question_count then
      some "All performance targets achieved"
    else none
  else if check_metric_stagnation state = true then
    some "Multiple metrics showing no improvement after repeated targeting"
  else if state.flat_scores ≠ [] ∧ (4 : ℤ) ≤ state.question_count then
    if (state.flat_scores.length : ℚ) * 0.6 ≤ (count_poor state.flat_scores : ℚ) then
      some "Performance threshold not met across multiple competencies"
    else none
  else none

/-- `InterviewNodes.check_completion`. -/
def check_completion (state : InterviewState) : InterviewState :=
  match completion_verdict state with
  | some reason =>
      { state with interview_complete := true
                   completion_reason := some reason
                   current_interview_stage := InterviewStage.completed }
  | none => state

/-- Fallback text of `generate_final_summary`'s except branch (numeric
formatting abstracted to `toString`). -/
def fallback_summary_text (state : InterviewState) : String :=
  "Interview completed with " ++ toString state.question_count ++
    " questions. Average performance: " ++ toString (state.average_score.getD 0) ++
    "/100. Completion reason: " ++ (state.completion_reason.getD "Interview completed") ++ "."

/-- `InterviewNodes.generate_final_summary`. -/
def generate_final_summary (reply : LLMReply) (state : InterviewState) : InterviewState :=
  match reply with
  | LLMReply.returned text =>
      { state with overall_performance_summary := some text.trim }
  | LLMReply.raised _ =>
      { state with overall_performance_summary := some (fallback_summary_text state) }

/-- `InterviewNodes.process_candidate_answer`: append the unscored pair. -/
def process_candidate_answer (candidate_answer : String) (duration_seconds : Option ℚ)
    (now : String) (state : InterviewState) : InterviewState :=
  { state with conversation_history := state.conversation_history ++
      [{ question := state.current_question
         answer := candidate_answer
         timestamp := now
         duration_seconds := duration_seconds }] }

/-- External-effect outcomes consumed during one `process_turn` workflow run. -/
structure TurnEffects where
  scoring : ScoringReply
  feedback : LLMReply
  pick : List (String × ℚ) → String
  question : LLMReply
  summary : LLMReply
  now : String

/-- `InterviewAgentGraph._run_workflow` for `workflow_type="process_turn"`.
An empty candidate answer is falsy in Python, raising `ValueError` which the
surrounding `except` records in `state["error"]`. -/
def run_process_turn (fx : TurnEffects) (candidate_answer : String)
    (duration_seconds : Option ℚ) (state : InterviewState) : InterviewState :=
  if candidate_answer = "" then { state with error := some "No candidate answer provided" }
  else
    let s1 := process_candidate_answer candidate_answer duration_seconds fx.now state
    let s2 := score_answer fx.scoring s1
    let s3 := generate_feedback fx.feedback s2
    let s4 := check_completion s3
    if s4.interview_complete = false then
      generate_question fx.question (select_next_action fx.pick s4)
    else
      generate_final_summary fx.summary s4

/-- `InterviewAgentGraph.process_turn`: session lookup, workflow run, and
store-back.  Only an unknown `session_id` raises; there is no check of
`interview_complete` before processing the turn. -/
def process_turn_api (sessions : Dict InterviewState) (session_id : String)
    (candidate_answer : String) (duration_seconds : Option ℚ) (fx : TurnEffects) :
    Except String (Dict InterviewState) :=
  match dget sessions session_id with
  | none => Except.error ("No active interview session found: " ++ session_id)
  | some st =>
      let result := run_process_turn fx candidate_answer duration_seconds st
      Except.ok (dset sessions session_id result)

namespace AgentCore

/-- `InterviewAgent._should_end_interview` from `agent_core.py`: the same four
conditions as `check_completion`, but as independent early-return `if`s —
a failed saturation test does not suppress the later checks. -/
def should_end_interview (state : InterviewState) : Bool :=
  if state.max_questions ≤ state.question_count then true
  else if (state.flat_scores ≠ [] ∧ state.weighted_metrics.length ≤ state.flat_scores.length) ∧
      ((∀ p ∈ state.flat_scores, (75 : ℚ) ≤ p.2) ∧ (4 : ℤ) ≤ state.question_count) then true
  else if check_metric_stagnation state = true then true
  else if (state.flat_scores ≠ [] ∧ (4 : ℤ) ≤ state.question_count) ∧
      (state.flat_scores.length : ℚ) * 0.6 ≤ (count_poor state.flat_scores : ℚ) then true
  else false

/-- `InterviewAgent._determine_completion_reason` from `agent_core.py`. -/
def determine_completion_reason (state : InterviewState) : String :=
  if state.max_questions ≤ state.question_count then "Maximum questions reached"
  else if (state.flat_scores ≠ [] ∧ state.weighted_metrics.length ≤ state.flat_scores.length) ∧
      (∀ p ∈ state.flat_scores, (75 : ℚ) ≤ p.2) then
    "All performance targets achieved - comprehensive skill demonstration"
  else if check_metric_stagnation state = true then
    "Multiple metrics showing no improvement after repeated targeting"
  else if state.flat_scores ≠ [] ∧
      (state.flat_scores.length : ℚ) * 0.6 ≤ (count_poor state.flat_scores : ℚ) then
    "Performance threshold not met across multiple competencies"
  else "Interview completed"

/-- The metric-list choice in `InterviewAgent.initialize_interview_state`:
`weighted_metrics if weighted_metrics else self.default_metrics` — unlike
`create_initial_state`, an empty (falsy) list is silently replaced by the
defaults; still no validation error is raised. -/
def choose_metrics (weighted_metrics : Option (List WeightedMetric)) : List WeightedMetric :=
  match weighted_metrics with
  | none => default_metrics
  | some [] => default_metrics
  | some ms => ms

end AgentCore

/-! ### Dictionary lemmas -/

theorem dget_dset {α : Type} (d : Dict α) (k q : String) (v : α) :
    dget (dset d k v) q = if k = q then some v else dget d q := by
  induction d with
  | nil => by_cases h : k = q <;> simp [dset, dget, h]
  | cons p t ih =>
      obtain ⟨k', v'⟩ := p
      by_cases hk : k' = k
      · subst hk
        by_cases hq : k' = q <;> simp [dset, dget, hq]
      · by_cases hq : k' = q
        · subst hq
          have : ¬ k = k' := fun h => hk h.symm
          simp [dset, dget, hk, this]
        · simp [dset, dget, hk, hq, ih]

theorem dget_some_mem_dkeys {α : Type} (d : Dict α) (k : String) (v : α)
    (h : dget d k = some v) : k ∈ dkeys d := by
  induction d with
  | nil => simp [dget] at h
  | cons p t ih =>
      by_cases hk : p.1 = k
      · simp [dkeys, hk]
      · rw [show p = (p.1, p.2) from rfl] at h
        simp only [dget, hk, if_false] at h
        show k ∈ p.1 :: dkeys t
        exact List.mem_cons_of_mem _ (ih h)

theorem dkeys_dset {α : Type} (d : Dict α) (k : String) (v : α) :
    dkeys (dset d k v) = if k ∈ dkeys d then dkeys d else dkeys d ++ [k] := by
  induction d with
  | nil => simp [dset, dkeys]
  | cons p t ih =>
      obtain ⟨k', v'⟩ := p
      by_cases hk : k' = k
      · subst hk
        simp [dset, dkeys]
      · have hne : ¬ k = k' := fun h => hk h.symm
        have hstep : dset ((k', v') :: t) k v = (k', v') :: dset t k v := by
          simp [dset, hk]
        rw [hstep]
        show k' :: dkeys (dset t k v) = _
        rw [ih]
        by_cases hmem : k ∈ dkeys t
        · have hmem2 : k ∈ dkeys ((k', v') :: t) := List.mem_cons_of_mem _ hmem
          rw [if_pos hmem, if_pos hmem2]
          rfl
        · have hmem2 : k ∉ dkeys ((k', v') :: t) := by
            intro hc
            have hc2 : k = k' ∨ k ∈ dkeys t := List.mem_cons.mp hc
            rcases hc2 with h | h
            · exact hne h
            · exact hmem h
          rw [if_neg hmem, if_neg hmem2]
          rfl

theorem nodup_dkeys_dset {α : Type} (d : Dict α) (k : String) (v : α)
    (h : (dkeys d).Nodup) : (dkeys (dset d k v)).Nodup := by
  rw [dkeys_dset]
  by_cases hmem : k ∈ dkeys d
  · simpa [hmem]
  · simpa [hmem, List.nodup_append]

theorem mem_dset_of_nodup {α : Type} (d : Dict α) (k q : String) (v w : α)
    (hnd : (dkeys d).Nodup) (h : (q, w) ∈ dset d k v) :
    (q = k ∧ w = v) ∨ ((q, w) ∈ d ∧ q ≠ k) := by
  induction d with
  | nil =>
      simp [dset] at h
      exact Or.inl ⟨h.1, h.2⟩
  | cons p t ih =>
      obtain ⟨k', v'⟩ := p
      simp only [dkeys, List.map_cons, List.nodup_cons] at hnd
      by_cases hk : k' = k
      · subst hk
        simp only [dset, if_pos rfl] at h
        rcases List.mem_cons.mp h with h1 | h1
        · exact Or.inl ⟨congrArg Prod.fst h1, congrArg Prod.snd h1⟩
        · have hq : q ∈ dkeys t := List.mem_map_of_mem Prod.fst h1
          have : q ≠ k' := fun hqe => hnd.1 (hqe ▸ hq)
          exact Or.inr ⟨List.mem_cons_of_mem _ h1, this⟩
      · simp only [dset, if_neg hk] at h
        rcases List.mem_cons.mp h with h1 | h1
        · have h2 : q = k' ∧ w = v' :=
            ⟨congrArg Prod.fst h1, congrArg Prod.snd h1⟩
          exact Or.inr ⟨by simp [h2.1, h2.2], fun hqe => hk (h2.1.symm.trans hqe)⟩
        · rcases ih hnd.2 h1 with h2 | h2
          · exact Or.inl h2
          · exact Or.inr ⟨List.mem_cons_of_mem _ h2.1, h2.2⟩

/-- Folding `dset` updates over keys not containing `m` leaves `m`'s entry alone. -/
theorem foldl_dset_dget_of_notmem {β γ : Type} (g : Option β → γ → β) :
    ∀ (l : List (String × γ)) (acc : Dict β) (m : String),
      m ∉ l.map Prod.fst →
      dget (l.foldl (fun a p => dset a p.1 (g (dget a p.1) p.2)) acc) m = dget acc m := by
  intro l
  induction l with
  | nil => intro acc m _; rfl
  | cons p t ih =>
      intro acc m hm
      simp only [List.map_cons, List.mem_cons] at hm
      push_neg at hm
      have hne : ¬ p.1 = m := fun h => hm.1 h.symm
      rw [List.foldl_cons, ih _ m hm.2, dget_dset, if_neg hne]

/-- Final entry of key `m` after folding `dset` updates over a nodup-keyed
input list that contains `(m, r)`. -/
theorem foldl_dset_dget {β γ : Type} (g : Option β → γ → β) :
    ∀ (l : List (String × γ)) (acc : Dict β) (m : String) (r : γ),
      (m, r) ∈ l → (l.map Prod.fst).Nodup →
      dget (l.foldl (fun a p => dset a p.1 (g (dget a p.1) p.2)) acc) m =
        some (g (dget acc m) r) := by
  intro l
  induction l with
  | nil => intro acc m r h _; simp at h
  | cons p t ih =>
      intro acc m r hmem hnd
      simp only [List.map_cons, List.nodup_cons] at hnd
      rcases List.mem_cons.mp hmem with h1 | h1
      · have hm : m = p.1 := congrArg Prod.fst h1
        have hr : r = p.2 := congrArg Prod.snd h1
        subst hm; subst hr
        rw [List.foldl_cons, foldl_dset_dget_of_notmem g t _ _ hnd.1,
          dget_dset, if_pos rfl]
      · have hm : m ∈ t.map Prod.fst := List.mem_map_of_mem Prod.fst h1
        have hne : ¬ p.1 = m := fun h => hnd.1 (h ▸ hm)
        rw [List.foldl_cons, ih _ m r h1 hnd.2, dget_dset, if_neg hne]

/-- Every value of the fold result satisfies `P` when every update writes a
`P`-value and every pre-existing entry is overwritten (its key occurs in the
input list) or already satisfies `P`. -/
theorem foldl_dset_value_bound {β γ : Type} (g : Option β → γ → β) (P : β → Prop) :
    ∀ (l : List (String × γ)) (acc : Dict β),
      (∀ o : Option β, ∀ p ∈ l, P (g o p.2)) →
      (∀ q ∈ acc, q.1 ∈ l.map Prod.fst ∨ P q.2) →
      (dkeys acc).Nodup →
      ∀ q ∈ l.foldl (fun a p => dset a p.1 (g (dget a p.1) p.2)) acc, P q.2 := by
  intro l
  induction l with
  | nil =>
      intro acc _ hacc _ q hq
      rcases hacc q hq with h | h
      · simp at h
      · exact h
  | cons p t ih =>
      intro acc hg hacc hnd q hq
      rw [List.foldl_cons] at hq
      refine ih _ (fun o p' hp' => hg o p' (List.mem_cons_of_mem _ hp')) ?_
        (nodup_dkeys_dset _ _ _ hnd) q hq
      intro q' hq'
      rcases mem_dset_of_nodup _ _ _ _ _ hnd hq' with h1 | h1
      · exact Or.inr (h1.2 ▸ hg (dget acc p.1) p (List.mem_cons_self _ _))
      · rcases hacc q' h1.1 with h2 | h2
        · rw [List.map_cons] at h2
          rcases List.mem_cons.mp h2 with h3 | h3
          · exact absurd h3 h1.2
          · exact Or.inl h3
        · exact Or.inr h2

/-- `set_last` maps the last element and keeps the length. -/
theorem getLast?_set_last {α : Type} (f : α → α) :
    ∀ l : List α, (set_last l f).getLast? = l.getLast?.map f := by
  intro l
  induction l with
  | nil => rfl
  | cons x t ih =>
      cases t with
      | nil => rfl
      | cons y u =>
          have hcons : ∃ a l', set_last (y :: u) f = a :: l' := by
            cases u with
            | nil => exact ⟨f y, [], rfl⟩
            | cons z w => exact ⟨y, set_last (z :: w) f, rfl⟩
          obtain ⟨a, l', hal⟩ := hcons
          rw [show set_last (x :: y :: u) f = x :: set_last (y :: u) f from rfl, hal,
            List.getLast?_cons_cons, ← hal, ih, List.getLast?_cons_cons]

theorem length_set_last {α : Type} (f : α → α) :
    ∀ l : List α, (set_last l f).length = l.length := by
  intro l
  induction l with
  | nil => rfl
  | cons x t ih =>
      cases t with
      | nil => rfl
      | cons y u => simpa [set_last] using ih

/-! ### Field-preservation lemmas for the workflow nodes -/

theorem score_answer_preserves (r : ScoringReply) (s : InterviewState) :
    (score_answer r s).question_count = s.question_count ∧
    (score_answer r s).max_questions = s.max_questions ∧
    (score_answer r s).interview_complete = s.interview_complete ∧
    (score_answer r s).completion_reason = s.completion_reason ∧
    (score_answer r s).current_question = s.current_question ∧
    (score_answer r s).current_interview_stage = s.current_interview_stage ∧
    (score_answer r s).weighted_metrics.length = s.weighted_metrics.length := by
  unfold score_answer
  by_cases h : s.conversation_history = []
  · simp [h]
  · cases r <;> simp [h, apply_scoring_data, update_state_metrics]

theorem generate_feedback_preserves (r : LLMReply) (s : InterviewState) :
    (generate_feedback r s).question_count = s.question_count ∧
    (generate_feedback r s).max_questions = s.max_questions ∧
    (generate_feedback r s).interview_complete = s.interview_complete ∧
    (generate_feedback r s).completion_reason = s.completion_reason ∧
    (generate_feedback r s).current_question = s.current_question ∧
    (generate_feedback r s).flat_scores = s.flat_scores ∧
    (generate_feedback r s).weighted_metrics = s.weighted_metrics ∧
    (generate_feedback r s).conversation_history = s.conversation_history ∧
    (generate_feedback r s).metric_improvement_history = s.metric_improvement_history ∧
    (generate_feedback r s).weakness_tracking = s.weakness_tracking := by
  unfold generate_feedback
  by_cases h : s.conversation_history = []
  · simp [h]
  · cases r <;> simp [h]

theorem check_completion_preserves (s : InterviewState) :
    (check_completion s).question_count = s.question_count ∧
    (check_completion s).max_questions = s.max_questions ∧
    (check_completion s).current_question = s.current_question ∧
    (check_completion s).flat_scores = s.flat_scores ∧
    (check_completion s).weighted_metrics = s.weighted_metrics ∧
    (check_completion s).conversation_history = s.conversation_history := by
  unfold check_completion
  cases h : completion_verdict s <;> simp

theorem check_completion_monotone (s : InterviewState)
    (h : s.interview_complete = true) :
    (check_completion s).interview_complete = true := by
  unfold check_completion
  cases hv : completion_verdict s <;> simp [h]

theorem check_completion_of_verdict (s : InterviewState) (reason : String)
    (h : completion_verdict s = some reason) :
    (check_completion s).interview_complete = true ∧
    (check_completion s).completion_reason = some reason ∧
    (check_completion s).current_interview_stage = InterviewStage.completed := by
  unfold check_completion
  rw [h]
  exact ⟨rfl, rfl, rfl⟩

theorem generate_final_summary_preserves (r : LLMReply) (s : InterviewState) :
    (generate_final_summary r s).question_count = s.question_count ∧
    (generate_final_summary r s).interview_complete = s.interview_complete ∧
    (generate_final_summary r s).completion_reason = s.completion_reason ∧
    (generate_final_summary r s).current_question = s.current_question ∧
    (generate_final_summary r s).flat_scores = s.flat_scores ∧
    (generate_final_summary r s).conversation_history = s.conversation_history := by
  cases r <;> exact ⟨rfl, rfl, rfl, rfl, rfl, rfl⟩

/-! ### Concrete session fixtures used by the claim theorems -/

/-- A metric with an arbitrary reporting weight. -/
def test_metric (n : String) : WeightedMetric := { metric_name := n, weight := 0.25 }

/-- A fresh two-metric session (max_questions 10). -/
def base_session : InterviewState :=
  create_initial_state "Software Engineer" none "Standard Technical Interviewer"
    (some [test_metric "m1", test_metric "m2"]) 10 "session-base"

/-- The stagnation scenario of the spec: both metrics probed 3 times with
scores 50, 52, 48 (spread 4 < 5), `weakness_tracking = 3`, question 3 of 10,
every configured metric holding a `flat_scores` entry outside the poor band. -/
def c1_state : InterviewState :=
  { base_session with
      question_count := 3
      current_question := "q3"
      flat_scores := [("m1", 48), ("m2", 48)]
      metric_improvement_history := [("m1", [50, 52, 48]), ("m2", [50, 52, 48])]
      weakness_tracking := [("m1", 3), ("m2", 3)] }

/-- C1: in the stagnation scenario (each metric probed 3 times with latest
scores 50, 52, 48 and weakness_tracking 3, for 100% ≥ 50% of the metrics,
question_count 3 < max_questions 10, no score below 30), the per-metric
stagnation predicate holds, yet the LangGraph `check_completion` does NOT
complete the interview: because every configured metric has a `flat_scores`
entry, the saturation guard (`len(flat_scores) >= len(weighted_metrics)`)
consumes the elif chain and the stagnation check is never reached.  The
older `agent_core` implementation of the same logic (independent `if`s)
ends the interview with the stagnation reason, as the claim states. -/
theorem c1_stagnation_shadowed_by_saturation_guard :
    check_metric_stagnation c1_state = true ∧
    (check_completion c1_state).interview_complete = false ∧
    (check_completion c1_state).completion_reason = none ∧
    AgentCore.should_end_interview c1_state = true ∧
    AgentCore.determine_completion_reason c1_state =
      "Multiple metrics showing no improvement after repeated targeting" := by
  refine ⟨?_, ?_, ?_, ?_, ?_⟩
  · simp [check_metric_stagnation, c1_state, base_session, create_initial_state,
      is_stagnant_metric, count_stagnant, dgetD, dget, list_max, list_min, test_metric]
    norm_num
  · simp [check_completion, completion_verdict, c1_state, base_session, create_initial_state,
      check_metric_stagnation, is_stagnant_metric, count_stagnant, count_poor,
      dgetD, dget, list_max, list_min, test_metric]
  · simp [check_completion, completion_verdict, c1_state, base_session, create_initial_state,
      check_metric_stagnation, is_stagnant_metric, count_stagnant, count_poor,
      dgetD, dget, list_max, list_min, test_metric]
  · simp [AgentCore.should_end_interview, c1_state, base_session, create_initial_state,
      check_metric_stagnation, is_stagnant_metric, count_stagnant, count_poor,
      dgetD, dget, list_max, list_min, test_metric]
    norm_num
  · simp [AgentCore.determine_completion_reason, c1_state, base_session, create_initial_state,
      check_metric_stagnation, is_stagnant_metric, count_stagnant, count_poor,
      dgetD, dget, list_max, list_min, test_metric]
    norm_num

/-- The misconfigured start of claim C9: an explicitly empty metric list and
`max_questions = 0`. -/
def c9_state : InterviewState :=
  create_initial_state "Software Engineer" none "Standard Technical Interviewer"
    (some []) 0 "session-c9"

/-- C9: `create_initial_state` performs no validation at all.  With an empty
metric list and `max_questions = 0` it still builds a session (the empty list
is kept — defaults are substituted only for `None` — and the non-positive
limit is accepted, no error recorded), and initialization then proceeds to
question_count 1 with the hard-coded `"technical_acumen"` stand-in target.
`agent_core`'s variant instead silently replaces a falsy (empty) metric list
with the defaults; neither implementation fails fast as the spec requires. -/
theorem c9_start_accepts_invalid_config :
    c9_state.weighted_metrics = [] ∧
    c9_state.max_questions = 0 ∧
    c9_state.error = none ∧
    (init_interview (LLMReply.returned "Hello!") c9_state).question_count = 1 ∧
    (init_interview (LLMReply.returned "Hello!") c9_state).current_target_metric =
      some "technical_acumen" ∧
    AgentCore.choose_metrics (some []) = default_metrics := by
  refine ⟨rfl, rfl, rfl, rfl, ?_, rfl⟩
  simp [init_interview, first_metric_name, c9_state, create_initial_state]

/-- C5: applying a scoring result that carries raw score `r` for metric `m`
sets `flat_scores[m]` to `(r - 1) / 4 * 100`, appends the same normalized
value to `metric_improvement_history[m]`, and for raw scores within the
1-5 scale the normalized value lies in [0, 100]. -/
theorem c5_scoring_normalization (s : InterviewState) (d : ScoringData) (m : String) (r : ℚ)
    (hmem : (m, r) ∈ d.metrics) (hnd : (d.metrics.map Prod.fst).Nodup) :
    dget (update_state_metrics s d).flat_scores m = some ((r - 1) / 4 * 100) ∧
    dget (update_state_metrics s d).metric_improvement_history m =
      some ((dget s.metric_improvement_history m).getD [] ++ [(r - 1) / 4 * 100]) ∧
    (1 ≤ r → r ≤ 5 → 0 ≤ (r - 1) / 4 * 100 ∧ (r - 1) / 4 * 100 ≤ 100) := by
  refine ⟨?_, ?_, ?_⟩
  · have h := foldl_dset_dget (β := ℚ) (γ := ℚ) (fun _ x => normalize_score x)
      d.metrics s.flat_scores m r hmem hnd
    simpa [update_state_metrics, normalize_score] using h
  · have h := foldl_dset_dget (β := List ℚ) (γ := ℚ)
      (fun o x => o.getD [] ++ [normalize_score x])
      d.metrics s.metric_improvement_history m r hmem hnd
    simpa [update_state_metrics, normalize_score] using h
  · intro h1 h5
    have hrw : (r - 1) / 4 * 100 = 25 * (r - 1) := by ring
    rw [hrw]
    constructor <;> linarith

/-- Scoring data carrying one configured metric at the neutral raw score 3. -/
def c5_data : ScoringData := { metrics := [("m1", 3)] }

/-- Instantiation of the C5 theorem on a concrete scoring result. -/
theorem c5_scoring_normalization_witness :
    (("m1", (3 : ℚ)) ∈ c5_data.metrics ∧ (c5_data.metrics.map Prod.fst).Nodup) ∧
    (dget (update_state_metrics base_session c5_data).flat_scores "m1" =
        some (((3 : ℚ) - 1) / 4 * 100) ∧
      dget (update_state_metrics base_session c5_data).metric_improvement_history "m1" =
        some ((dget base_session.metric_improvement_history "m1").getD [] ++
          [((3 : ℚ) - 1) / 4 * 100]) ∧
      (1 ≤ (3 : ℚ) → (3 : ℚ) ≤ 5 →
        0 ≤ ((3 : ℚ) - 1) / 4 * 100 ∧ ((3 : ℚ) - 1) / 4 * 100 ≤ 100)) :=
  ⟨⟨by decide, by decide⟩,
    c5_scoring_normalization base_session c5_data "m1" 3 (by decide) (by decide)⟩

/-- The C10 scenario: one configured metric `m1` that was never scored, while
`flat_scores` holds a single entry for the unconfigured name
`"other_metric"` at 80 ≥ 75, at question 4 of 10. -/
def c10_state : InterviewState :=
  { base_session with
      weighted_metrics := [test_metric "m1"]
      question_count := 4
      flat_scores := [("other_metric", 80)] }

/-- C10: `_update_state_metrics` writes every name in `result.metrics` into
`flat_scores` and `metric_improvement_history`, including names outside the
configured list (first conjunct, hypothesis `m ∉ configured`); and the
completion check's `len(flat_scores) >= len(weighted_metrics)` guard plus its
quantification over all `flat_scores` values lets entries for unconfigured
names satisfy the saturation condition while the configured metric `m1` has
never been scored (second conjunct). -/
theorem c10_unconfigured_names_flow (s : InterviewState) (d : ScoringData) (m : String) (r : ℚ)
    (hmem : (m, r) ∈ d.metrics) (hnd : (d.metrics.map Prod.fst).Nodup)
    (hout : m ∉ s.weighted_metrics.map WeightedMetric.metric_name) :
    (dget (update_state_metrics s d).flat_scores m = some ((r - 1) / 4 * 100) ∧
      dget (update_state_metrics s d).metric_improvement_history m =
        some ((dget s.metric_improvement_history m).getD [] ++ [(r - 1) / 4 * 100])) ∧
    ((check_completion c10_state).interview_complete = true ∧
      (check_completion c10_state).completion_reason = some "All performance targets achieved" ∧
      dget c10_state.flat_scores "m1" = none) := by
  constructor
  · constructor
    · have h := foldl_dset_dget (β := ℚ) (γ := ℚ) (fun _ x => normalize_score x)
        d.metrics s.flat_scores m r hmem hnd
      simpa [update_state_metrics, normalize_score] using h
    · have h := foldl_dset_dget (β := List ℚ) (γ := ℚ)
        (fun o x => o.getD [] ++ [normalize_score x])
        d.metrics s.metric_improvement_history m r hmem hnd
      simpa [update_state_metrics, normalize_score] using h
  · refine ⟨?_, ?_, by decide⟩ <;>
      · simp [check_completion, completion_verdict, c10_state, base_session,
          create_initial_state, check_metric_stagnation, is_stagnant_metric,
          count_stagnant, count_poor, dgetD, dget, list_max, list_min, test_metric]
        norm_num

/-- Scoring data mentioning only the unconfigured name `"stray"`. -/
def c10_data : ScoringData := { metrics := [("stray", 2)] }

/-- Instantiation of the C10 theorem: `"stray"` is not configured in
`c10_state`, yet the update writes it into both maps. -/
theorem c10_unconfigured_names_flow_witness :
    (("stray", (2 : ℚ)) ∈ c10_data.metrics ∧ (c10_data.metrics.map Prod.fst).Nodup ∧
      "stray" ∉ c10_state.weighted_metrics.map WeightedMetric.metric_name) ∧
    ((dget (update_state_metrics c10_state c10_data).flat_scores "stray" =
        some (((2 : ℚ) - 1) / 4 * 100) ∧
      dget (update_state_metrics c10_state c10_data).metric_improvement_history "stray" =
        some ((dget c10_state.metric_improvement_history "stray").getD [] ++
          [((2 : ℚ) - 1) / 4 * 100])) ∧
    ((check_completion c10_state).interview_complete = true ∧
      (check_completion c10_state).completion_reason = some "All performance targets achieved" ∧
      dget c10_state.flat_scores "m1" = none)) :=
  ⟨⟨by decide, by decide, by decide⟩,
    c10_unconfigured_names_flow c10_state c10_data "stray" 2 (by decide) (by decide) (by decide)⟩

/-- The code-side banded weight agrees with the claim's band table
(`≤20 ↦ 10`, `(20,40] ↦ 5`, `(40,60] ↦ 2`, `(60,80] ↦ 0.5`, `>80 ↦ 0.1`)
multiplied by the anti-fixation factor (`0.3` exactly when addressed more
than twice, else `1`). -/
theorem claim_band_weight_eq (sc : ℚ) (t : ℤ) :
    (if 2 < t then metric_band_weight sc * 0.3 else metric_band_weight sc) =
      (if sc ≤ 20 then (10 : ℚ)
       else if 20 < sc ∧ sc ≤ 40 then 5
       else if 40 < sc ∧ sc ≤ 60 then 2
       else if 60 < sc ∧ sc ≤ 80 then 0.5
       else (0.1 : ℚ)) * (if 2 < t then (0.3 : ℚ) else 1) := by
  have hband : metric_band_weight sc =
      (if sc ≤ 20 then (10 : ℚ)
       else if 20 < sc ∧ sc ≤ 40 then 5
       else if 40 < sc ∧ sc ≤ 60 then 2
       else if 60 < sc ∧ sc ≤ 80 then 0.5
       else (0.1 : ℚ)) := by
    unfold metric_band_weight
    by_cases h1 : sc ≤ 20
    · simp [h1]
    · by_cases h2 : sc ≤ 40
      · simp [h1, h2, not_le.mp h1]
      · by_cases h3 : sc ≤ 60
        · simp [h1, h2, h3, not_le.mp h2]
        · by_cases h4 : sc ≤ 80
          · simp [h1, h2, h3, h4, not_le.mp h3]
          · simp [h1, h2, h3, h4]
  rw [hband]
  by_cases ht : 2 < t
  · simp [ht]
  · simp [ht]

/-- C4: with an empty `flat_scores` map the selector deterministically
returns the first configured metric; with a non-empty map it performs the
single draw `pick` over the configured metrics paired with exactly the
claimed weights: the band value of the metric's current score (defaulting to
50 when absent) times 0.3 exactly when `weakness_tracking` exceeds 2. -/
theorem c4_weighted_metric_selection (pick : List (String × ℚ) → String)
    (s : InterviewState) :
    (s.flat_scores = [] → ∀ m ms, s.weighted_metrics = m :: ms →
      weighted_metric_selection pick s = m.metric_name) ∧
    (s.flat_scores ≠ [] → s.weighted_metrics ≠ [] →
      weighted_metric_selection pick s = pick (selection_weights s) ∧
      selection_weights s = s.weighted_metrics.map (fun w =>
        (w.metric_name,
          (if dgetD s.flat_scores w.metric_name 50 ≤ 20 then (10 : ℚ)
           else if 20 < dgetD s.flat_scores w.metric_name 50 ∧
               dgetD s.flat_scores w.metric_name 50 ≤ 40 then 5
           else if 40 < dgetD s.flat_scores w.metric_name 50 ∧
               dgetD s.flat_scores w.metric_name 50 ≤ 60 then 2
           else if 60 < dgetD s.flat_scores w.metric_name 50 ∧
               dgetD s.flat_scores w.metric_name 50 ≤ 80 then 0.5
           else (0.1 : ℚ)) *
          (if 2 < dgetD s.weakness_tracking w.metric_name 0 then (0.3 : ℚ) else 1)))) := by
  constructor
  · intro h m ms hwm
    simp [weighted_metric_selection, h, first_metric_name, hwm]
  · intro h hne
    have hp : selection_weights s ≠ [] := by
      simp only [selection_weights, ne_eq, List.map_eq_nil_iff]
      exact hne
    constructor
    · simp [weighted_metric_selection, h, hp]
    · unfold selection_weights
      refine List.map_congr_left ?_
      intro w _
      simpa using claim_band_weight_eq (dgetD s.flat_scores w.metric_name 50)
        (dgetD s.weakness_tracking w.metric_name 0)

/-- A session whose weak metric `m1` (score 10, band weight 10, decayed by
0.3 after 3 targetings) and strong metric `m2` (score 90, weight 0.1) feed
the draw. -/
def c4_state : InterviewState :=
  { base_session with
      flat_scores := [("m1", 10), ("m2", 90)]
      weakness_tracking := [("m1", 3)] }

/-- Instantiation of the C4 theorem: the fresh session (empty flat map)
deterministically selects `m1`, and on `c4_state` the draw receives exactly
the claimed weights. -/
theorem c4_weighted_metric_selection_witness :
    (base_session.flat_scores = [] ∧
      weighted_metric_selection (fun l => l.headI.1) base_session =
        (test_metric "m1").metric_name) ∧
    (c4_state.flat_scores ≠ [] ∧ c4_state.weighted_metrics ≠ [] ∧
      weighted_metric_selection (fun l => l.headI.1) c4_state =
        (fun l : List (String × ℚ) => l.headI.1) (selection_weights c4_state) ∧
      selection_weights c4_state = c4_state.weighted_metrics.map (fun w =>
        (w.metric_name,
          (if dgetD c4_state.flat_scores w.metric_name 50 ≤ 20 then (10 : ℚ)
           else if 20 < dgetD c4_state.flat_scores w.metric_name 50 ∧
               dgetD c4_state.flat_scores w.metric_name 50 ≤ 40 then 5
           else if 40 < dgetD c4_state.flat_scores w.metric_name 50 ∧
               dgetD c4_state.flat_scores w.metric_name 50 ≤ 60 then 2
           else if 60 < dgetD c4_state.flat_scores w.metric_name 50 ∧
               dgetD c4_state.flat_scores w.metric_name 50 ≤ 80 then 0.5
           else (0.1 : ℚ)) *
          (if 2 < dgetD c4_state.weakness_tracking w.metric_name 0 then (0.3 : ℚ) else 1)))) := by
  refine ⟨⟨rfl, ?_⟩, ⟨by decide, by decide, ?_⟩⟩
  · exact (c4_weighted_metric_selection (fun l => l.headI.1) base_session).1 rfl
      (test_metric "m1") [test_metric "m2"] rfl
  · exact (c4_weighted_metric_selection (fun l => l.headI.1) c4_state).2
      (by decide) (by decide)

/-- Stage fields are untouched by `process_candidate_answer`. -/
theorem process_candidate_answer_preserves (a : String) (dur : Option ℚ) (now : String)
    (s : InterviewState) :
    (process_candidate_answer a dur now s).question_count = s.question_count ∧
    (process_candidate_answer a dur now s).max_questions = s.max_questions ∧
    (process_candidate_answer a dur now s).interview_complete = s.interview_complete ∧
    (process_candidate_answer a dur now s).completion_reason = s.completion_reason ∧
    (process_candidate_answer a dur now s).current_question = s.current_question ∧
    (process_candidate_answer a dur now s).flat_scores = s.flat_scores ∧
    (process_candidate_answer a dur now s).weighted_metrics = s.weighted_metrics := by
  exact ⟨rfl, rfl, rfl, rfl, rfl, rfl, rfl⟩

/-- `_update_interview_stage` only rewrites the stage field. -/
theorem update_interview_stage_preserves (s : InterviewState) :
    (update_interview_stage s).question_count = s.question_count ∧
    (update_interview_stage s).interview_complete = s.interview_complete ∧
    (update_interview_stage s).completion_reason = s.completion_reason ∧
    (update_interview_stage s).current_question = s.current_question := by
  unfold update_interview_stage
  split_ifs <;> exact ⟨rfl, rfl, rfl, rfl⟩

/-- The opening-stage state of question 2 about to receive question 3 while
the LLM is down (`generate_question` takes its except branch). -/
def c7_state : InterviewState :=
  { base_session with
      question_count := 2
      current_question := "q2"
      current_interview_stage := InterviewStage.opening }

/-- C7 counterexample: on the fallback-question path `generate_question`
increments `question_count` from 2 to 3 but leaves the stage at Opening,
whereas the claim's table demands Technical for `3 ≤ q ≤ 6` after every
question generation. -/
theorem c7_fallback_stage_stale :
    (generate_question (LLMReply.raised "llm down") c7_state).question_count = 3 ∧
    (generate_question (LLMReply.raised "llm down") c7_state).current_interview_stage =
      InterviewStage.opening ∧
    InterviewStage.opening ≠ InterviewStage.technical := by
  refine ⟨rfl, rfl, by decide⟩

/-- C7 amended: `question_count` is 1 (stage Opening) right after
initialization; every `generate_question` call — the fallback path
included — increments it by exactly 1; after a successful generation the
stage is recomputed from the new count by the claimed table; on the
fallback path the stage is left at its previous value. -/
theorem c7_question_count_and_stage :
    (∀ r s, (init_interview r s).question_count = 1 ∧
      (init_interview r s).current_interview_stage = InterviewStage.opening) ∧
    (∀ r s, (generate_question r s).question_count = s.question_count + 1) ∧
    (∀ text s, (generate_question (LLMReply.returned text) s).current_interview_stage =
      (if s.question_count + 1 ≤ 2 then InterviewStage.opening
       else if s.question_count + 1 ≤ 6 then InterviewStage.technical
       else if s.question_count + 1 ≤ 8 then InterviewStage.behavioral
       else InterviewStage.closing)) ∧
    (∀ msg s, (generate_question (LLMReply.raised msg) s).current_interview_stage =
      s.current_interview_stage) := by
  refine ⟨?_, ?_, ?_, ?_⟩
  · intro r s
    cases r <;> exact ⟨rfl, rfl⟩
  · intro r s
    cases r with
    | raised msg => rfl
    | returned text =>
        show (update_interview_stage _).question_count = _
        rw [(update_interview_stage_preserves _).1]
  · intro text s
    show (update_interview_stage _).current_interview_stage = _
    unfold update_interview_stage
    split_ifs <;> rfl
  · intro msg s
    rfl

/-- Question 9 of 10 in a senior-role interview: the closing override zone. -/
def c8_state : InterviewState :=
  { base_session with
      interview_type := "Senior Engineer"
      question_count := 9 }

/-- C8 counterexample: with `question_count = 9 ≥ max_questions - 2 = 8`, a
senior interview targeting `technical_acumen` yields the system-design
strategy, not the closing strategy the claim promises "regardless of the
target metric" — the senior override sits first in the elif chain. -/
theorem c8_senior_override_beats_closing :
    c8_state.max_questions - 2 ≤ c8_state.question_count ∧
    determine_action_strategy c8_state "technical_acumen" = ActionType.askSystemDesign ∧
    ActionType.askSystemDesign ≠ ActionType.askClosing := by
  refine ⟨by decide, ?_, by decide⟩
  simp [determine_action_strategy, c8_state, base_session, create_initial_state,
    metric_action_map]
  decide

/-- C8 amended: unless the senior/technical_acumen override fires first, the
two claimed overrides hold in elif order: within 2 questions of the limit the
strategy is forced to closing; otherwise, in the Opening stage with
`question_count ≤ 2`, it is forced to the standard strategy. -/
theorem c8_action_strategy_overrides (s : InterviewState) (target : String)
    (h : ¬ (contains_senior s.interview_type = true ∧ target = "technical_acumen")) :
    (s.max_questions - 2 ≤ s.question_count →
      determine_action_strategy s target = ActionType.askClosing) ∧
    (s.question_count < s.max_questions - 2 →
      s.current_interview_stage = InterviewStage.opening → s.question_count ≤ 2 →
      determine_action_strategy s target = ActionType.continueStandard) := by
  constructor
  · intro hq
    unfold determine_action_strategy
    rw [if_neg h, if_pos hq]
  · intro h1 h2 h3
    unfold determine_action_strategy
    rw [if_neg h, if_neg (not_le.mpr h1), if_pos ⟨h2, h3⟩]

/-- An early opening-stage state (question 1 of 10). -/
def c8_early_state : InterviewState :=
  { base_session with question_count := 1 }

/-- Instantiation of the C8 amended theorem on both override zones. -/
theorem c8_action_strategy_overrides_witness :
    (¬ (contains_senior c8_state.interview_type = true ∧ "communication" = "technical_acumen") ∧
      c8_state.max_questions - 2 ≤ c8_state.question_count ∧
      determine_action_strategy c8_state "communication" = ActionType.askClosing) ∧
    (¬ (contains_senior c8_early_state.interview_type = true ∧
        "communication" = "technical_acumen") ∧
      c8_early_state.question_count < c8_early_state.max_questions - 2 ∧
      c8_early_state.current_interview_stage = InterviewStage.opening ∧
      c8_early_state.question_count ≤ 2 ∧
      determine_action_strategy c8_early_state "communication" = ActionType.continueStandard) :=
  ⟨⟨by decide, by decide,
      (c8_action_strategy_overrides c8_state "communication" (by decide)).1 (by decide)⟩,
    ⟨by decide, by decide, by decide, by decide,
      (c8_action_strategy_overrides c8_early_state "communication" (by decide)).2
        (by decide) (by decide) (by decide)⟩⟩

/-! ### Claim C2: scoring fallback semantics -/

theorem apply_scoring_data_flat (s : InterviewState) (d : ScoringData) :
    (apply_scoring_data s d).flat_scores =
      d.metrics.foldl (fun fs p => dset fs p.1 (normalize_score p.2)) s.flat_scores := rfl

theorem apply_scoring_data_granular (s : InterviewState) (d : ScoringData) :
    (apply_scoring_data s d).granular_scores =
      d.granular_justifications.foldl (fun gs p => dset gs p.1
        { score := p.2.score.getD 3
          justification := p.2.justification.getD ""
          strengths := p.2.strengths.getD []
          areas_for_improvement := p.2.areas_for_improvement.getD [] })
        s.granular_scores := rfl

theorem apply_scoring_data_conv (s : InterviewState) (d : ScoringData) :
    (apply_scoring_data s d).conversation_history =
      set_last s.conversation_history (fun qa =>
        { qa with score := some (d.overall_score.getD 50)
                  metrics := d.metrics
                  feedback := d.turn_feedback.getD "" }) := rfl

theorem score_answer_unparsable_eq (s : InterviewState)
    (hh : ¬ s.conversation_history = []) :
    score_answer ScoringReply.unparsable s =
      apply_scoring_data s
        (create_fallback_scoring (s.weighted_metrics.map (fun m => m.metric_name))) := by
  simp [score_answer, hh]

/-- A two-metric session one answer into its history, none of it scored. -/
def c2_qa : QuestionAnswerPair := { question := "q1", answer := "a1", timestamp := "t1" }

def c2_state : InterviewState :=
  { base_session with
      question_count := 2
      current_question := "q2"
      conversation_history := [c2_qa] }

/-- Effects for one C2 turn: the scoring LLM returns unparsable output, the
other calls succeed. -/
def c2_fx : TurnEffects :=
  { scoring := ScoringReply.unparsable
    feedback := LLMReply.returned "feedback"
    pick := fun l => l.headI.1
    question := LLMReply.returned "q3"
    summary := LLMReply.returned "summary"
    now := "t2" }

/-- C2 counterexample: when the scoring LLM call itself raises (rather than
returning unparsable output), `score_answer` catches the exception and
returns with only `state["error"]` set — no fallback scoring is applied:
`flat_scores` stays empty (metric `m1` receives no 50.0 entry), and the
answer's score stays `None` instead of the claimed 60. -/
theorem c2_llm_error_skips_fallback :
    (score_answer (ScoringReply.raised "LLM unavailable") c2_state).flat_scores = [] ∧
    dget (score_answer (ScoringReply.raised "LLM unavailable") c2_state).flat_scores "m1" =
      none ∧
    ((score_answer (ScoringReply.raised "LLM unavailable") c2_state).conversation_history.map
      (fun qa => qa.score)) = [none] ∧
    (score_answer (ScoringReply.raised "LLM unavailable") c2_state).error =
      some "LLM unavailable" := by
  have hh : ¬ c2_state.conversation_history = [] := by decide
  refine ⟨?_, ?_, ?_, ?_⟩ <;>
    simp [score_answer, hh, c2_state, c2_qa, base_session, create_initial_state,
      test_metric, dget]

/-- C2 amended: on a JSON-parse failure the scoring node applies the
deterministic fallback — every configured metric at raw 3 (normalized 50 in
`flat_scores`), the generic justification text, and overall score 60 on the
answer — and never raises; on an LLM invocation error it also never raises
but applies no fallback: the state is returned unchanged except for
`state["error"]`.  In both cases the turn still completes and advances the
session (final conjunct: a full turn under parse failure moves
`question_count` from 2 to 3 without completing the interview). -/
theorem c2_scoring_fallback_semantics :
    (∀ (s : InterviewState) (m : String),
      s.conversation_history ≠ [] →
      (s.weighted_metrics.map WeightedMetric.metric_name).Nodup →
      m ∈ s.weighted_metrics.map WeightedMetric.metric_name →
      dget (score_answer ScoringReply.unparsable s).flat_scores m = some 50 ∧
      dget (score_answer ScoringReply.unparsable s).granular_scores m =
        some fallback_granular_score ∧
      ((score_answer ScoringReply.unparsable s).conversation_history.getLast?).map
        QuestionAnswerPair.score = some (some 60)) ∧
    (∀ (s : InterviewState) (msg : String),
      s.conversation_history ≠ [] →
      (score_answer (ScoringReply.raised msg) s).flat_scores = s.flat_scores ∧
      (score_answer (ScoringReply.raised msg) s).conversation_history =
        s.conversation_history ∧
      (score_answer (ScoringReply.raised msg) s).granular_scores = s.granular_scores ∧
      (score_answer (ScoringReply.raised msg) s).error = some msg) ∧
    ((run_process_turn c2_fx "A decent answer" none c2_state).question_count =
        c2_state.question_count + 1 ∧
      (run_process_turn c2_fx "A decent answer" none c2_state).interview_complete = false) := by
  refine ⟨?_, ?_, ?_⟩
  · intro s m hh hnd hm
    have hh' : ¬ s.conversation_history = [] := hh
    rw [score_answer_unparsable_eq s hh']
    refine ⟨?_, ?_, ?_⟩
    · rw [apply_scoring_data_flat]
      have key : (m, (3 : ℚ)) ∈
          (create_fallback_scoring (s.weighted_metrics.map (fun m => m.metric_name))).metrics :=
        List.mem_map_of_mem _ hm
      have hndk : (((create_fallback_scoring
          (s.weighted_metrics.map (fun m => m.metric_name))).metrics).map Prod.fst).Nodup := by
        simpa [create_fallback_scoring] using hnd
      have h := foldl_dset_dget (β := ℚ) (γ := ℚ) (fun _ x => normalize_score x)
        _ s.flat_scores m 3 key hndk
      have h50 : normalize_score 3 = 50 := by norm_num [normalize_score]
      simp only [h50] at h
      exact h
    · rw [apply_scoring_data_granular]
      have key : (m, fallback_granular_json) ∈
          (create_fallback_scoring
            (s.weighted_metrics.map (fun m => m.metric_name))).granular_justifications :=
        List.mem_map_of_mem _ hm
      have hndk : (((create_fallback_scoring
          (s.weighted_metrics.map (fun m => m.metric_name))).granular_justifications).map
            Prod.fst).Nodup := by
        simpa [create_fallback_scoring] using hnd
      exact foldl_dset_dget (β := GranularScore) (γ := GranularJson)
        (fun _ j => { score := j.score.getD 3,
                      justification := j.justification.getD "",
                      strengths := j.strengths.getD [],
                      areas_for_improvement := j.areas_for_improvement.getD [] })
        _ s.granular_scores m _ key hndk
    · rw [apply_scoring_data_conv, getLast?_set_last]
      obtain ⟨x, hx⟩ : ∃ x, s.conversation_history.getLast? = some x := by
        cases hx : s.conversation_history.getLast? with
        | none => exact absurd (List.getLast?_eq_none_iff.mp hx) hh
        | some x => exact ⟨x, rfl⟩
      rw [hx]
      rfl
  · intro s msg hh
    have hh' : ¬ s.conversation_history = [] := hh
    refine ⟨?_, ?_, ?_, ?_⟩ <;> simp [score_answer, hh']
  · constructor <;>
      · simp [run_process_turn, process_candidate_answer, score_answer, apply_scoring_data,
          create_fallback_scoring, update_state_metrics, set_last, normalize_score,
          generate_feedback, identify_coaching_focus, check_completion, completion_verdict,
          check_metric_stagnation, is_stagnant_metric, count_stagnant, count_poor,
          select_next_action, weighted_metric_selection, selection_weights, metric_band_weight,
          determine_action_strategy, metric_action_map, contains_senior, lower_char,
          starts_with_chars, contains_chars, generate_question, update_interview_stage,
          generate_final_summary, first_metric_name, dget, dgetD, dset, list_max, list_min,
          c2_state, c2_qa, c2_fx, base_session, create_initial_state, test_metric]

/-- Instantiation of the C2 amended theorem on the concrete two-metric
session, for both the parse-failure and the LLM-error path. -/
theorem c2_scoring_fallback_semantics_witness :
    (c2_state.conversation_history ≠ [] ∧
      (c2_state.weighted_metrics.map WeightedMetric.metric_name).Nodup ∧
      "m1" ∈ c2_state.weighted_metrics.map WeightedMetric.metric_name) ∧
    (dget (score_answer ScoringReply.unparsable c2_state).flat_scores "m1" = some 50 ∧
      dget (score_answer ScoringReply.unparsable c2_state).granular_scores "m1" =
        some fallback_granular_score ∧
      ((score_answer ScoringReply.unparsable c2_state).conversation_history.getLast?).map
        QuestionAnswerPair.score = some (some 60)) ∧
    ((score_answer (ScoringReply.raised "boom") c2_state).flat_scores =
        c2_state.flat_scores ∧
      (score_answer (ScoringReply.raised "boom") c2_state).conversation_history =
        c2_state.conversation_history ∧
      (score_answer (ScoringReply.raised "boom") c2_state).granular_scores =
        c2_state.granular_scores ∧
      (score_answer (ScoringReply.raised "boom") c2_state).error = some "boom") :=
  ⟨⟨by decide, by decide, by decide⟩,
    c2_scoring_fallback_semantics.1 c2_state "m1" (by decide) (by decide) (by decide),
    c2_scoring_fallback_semantics.2.1 c2_state "boom" (by decide)⟩

/-! ### Claim C6: completed sessions -/

/-- A session already completed by the max-questions rule. -/
def c6_state : InterviewState :=
  { base_session with
      question_count := 5
      current_question := "q5"
      conversation_history := [c2_qa]
      interview_complete := true
      completion_reason := some "Maximum questions reached"
      current_interview_stage := InterviewStage.completed }

def c6_fx : TurnEffects :=
  { scoring := ScoringReply.unparsable
    feedback := LLMReply.returned "feedback"
    pick := fun l => l.headI.1
    question := LLMReply.returned "q6"
    summary := LLMReply.returned "final summary"
    now := "t6" }

/-- C6 counterexample: a turn submitted to an already-completed session is
still processed — the answer is appended to the history and scored (here via
the fallback, score 60) — and the public `process_turn` surfaces no state
error for it (it returns `ok`; only unknown session ids raise). -/
theorem c6_completed_turn_still_processed :
    c6_state.interview_complete = true ∧
    (run_process_turn c6_fx "another answer" none c6_state).conversation_history.length =
      c6_state.conversation_history.length + 1 ∧
    ((run_process_turn c6_fx "another answer" none c6_state).conversation_history.getLast?).map
      QuestionAnswerPair.score = some (some 60) ∧
    (match process_turn_api [("s6", c6_state)] "s6" "another answer" none c6_fx with
      | Except.ok _ => true
      | Except.error _ => false) = true := by
  refine ⟨rfl, ?_, ?_, ?_⟩
  · simp [run_process_turn, process_candidate_answer, score_answer, apply_scoring_data,
      create_fallback_scoring, fallback_granular_json, update_state_metrics, set_last,
      normalize_score, generate_feedback, identify_coaching_focus, check_completion,
      completion_verdict, check_metric_stagnation, is_stagnant_metric, count_stagnant,
      count_poor, generate_final_summary, fallback_summary_text, dget, dgetD, dset,
      list_max, list_min, c6_state, c2_qa, c6_fx, base_session, create_initial_state,
      test_metric]
    norm_num
  · simp [run_process_turn, process_candidate_answer, score_answer, apply_scoring_data,
      create_fallback_scoring, fallback_granular_json, update_state_metrics, set_last,
      normalize_score, generate_feedback, identify_coaching_focus, check_completion,
      completion_verdict, check_metric_stagnation, is_stagnant_metric, count_stagnant,
      count_poor, generate_final_summary, fallback_summary_text, dget, dgetD, dset,
      list_max, list_min, c6_state, c2_qa, c6_fx, base_session, create_initial_state,
      test_metric]
    norm_num
  · simp [process_turn_api, dget]

/-- C6 amended: `interview_complete` is monotonic and no new question is ever
generated for a completed session (the workflow branches to the final
summary, leaving `question_count` and `current_question` untouched) — but
the turn itself is still processed rather than rejected; the only state
error `process_turn` raises is for an unknown session id. -/
theorem c6_complete_monotone_terminal :
    (∀ (s : InterviewState) (fx : TurnEffects) (a : String) (dur : Option ℚ),
      s.interview_complete = true →
      (run_process_turn fx a dur s).interview_complete = true ∧
      (run_process_turn fx a dur s).question_count = s.question_count ∧
      (run_process_turn fx a dur s).current_question = s.current_question) ∧
    (∀ (sessions : Dict InterviewState) (sid a : String) (dur : Option ℚ) (fx : TurnEffects),
      dget sessions sid = none →
      process_turn_api sessions sid a dur fx =
        Except.error ("No active interview session found: " ++ sid)) := by
  constructor
  · intro s fx a dur h
    by_cases ha : a = ""
    · refine ⟨?_, ?_, ?_⟩ <;> simp [run_process_turn, ha, h]
    · unfold run_process_turn
      rw [if_neg ha]
      have h1 := process_candidate_answer_preserves a dur fx.now s
      have h2 := score_answer_preserves fx.scoring (process_candidate_answer a dur fx.now s)
      have h3 := generate_feedback_preserves fx.feedback
        (score_answer fx.scoring (process_candidate_answer a dur fx.now s))
      have hc3 : (generate_feedback fx.feedback
          (score_answer fx.scoring
            (process_candidate_answer a dur fx.now s))).interview_complete = true := by
        rw [h3.2.2.1, h2.2.2.1, h1.2.2.1, h]
      have h4 := check_completion_monotone _ hc3
      have h5 := check_completion_preserves (generate_feedback fx.feedback
        (score_answer fx.scoring (process_candidate_answer a dur fx.now s)))
      rw [if_neg (by rw [h4]; simp)]
      have h6 := generate_final_summary_preserves fx.summary
        (check_completion (generate_feedback fx.feedback
          (score_answer fx.scoring (process_candidate_answer a dur fx.now s))))
      refine ⟨?_, ?_, ?_⟩
      · rw [h6.2.1, h4]
      · rw [h6.1, h5.1, h3.1, h2.1, h1.1]
      · rw [h6.2.2.2.1, h5.2.2.1, h3.2.2.2.2.1, h2.2.2.2.2.1, h1.2.2.2.2.1]
  · intro sessions sid a dur fx hnone
    simp [process_turn_api, hnone]

/-- Instantiation of the C6 amended theorem: a turn on the completed
`c6_state` keeps the flag and the question, and an unknown session id is
rejected with the distinct error. -/
theorem c6_complete_monotone_terminal_witness :
    (c6_state.interview_complete = true ∧
      (run_process_turn c6_fx "another answer" none c6_state).interview_complete = true ∧
      (run_process_turn c6_fx "another answer" none c6_state).question_count =
        c6_state.question_count ∧
      (run_process_turn c6_fx "another answer" none c6_state).current_question =
        c6_state.current_question) ∧
    (dget ([] : Dict InterviewState) "ghost" = none ∧
      process_turn_api [] "ghost" "hi" none c6_fx =
        Except.error ("No active interview session found: " ++ "ghost")) :=
  ⟨⟨rfl, c6_complete_monotone_terminal.1 c6_state c6_fx "another answer" none rfl⟩,
    ⟨rfl, c6_complete_monotone_terminal.2 [] "ghost" "hi" none c6_fx rfl⟩⟩

/-! ### Claim C3: rubric saturation ends the interview -/

theorem nodup_subset_length_le (l1 l2 : List String) (h1 : l1.Nodup) (h2 : l1 ⊆ l2) :
    l1.length ≤ l2.length := by
  calc l1.length = l1.toFinset.card := (List.toFinset_card_of_nodup h1).symm
    _ ≤ l2.toFinset.card := Finset.card_le_card (fun x hx => by
        rw [List.mem_toFinset] at hx ⊢
        exact h2 hx)
    _ ≤ l2.length := l2.toFinset_card_le

/-- C3: when the parsed scoring result covers exactly the 4 configured
metrics with raw scores ≥ 4 (normalized ≥ 75), every prior `flat_scores` key
is configured, and the turn happens at `4 ≤ question_count < max_questions`,
processing the turn completes the interview with the rubric-saturation
reason and generates no further question (`question_count` and
`current_question` are left untouched). -/
theorem c3_rubric_saturation_ends_interview
    (s : InterviewState) (d : ScoringData) (fx : TurnEffects) (a : String) (dur : Option ℚ)
    (ha : a ≠ "")
    (hfx : fx.scoring = ScoringReply.parsed d)
    (hnum : s.weighted_metrics.length = 4)
    (hq4 : (4 : ℤ) ≤ s.question_count)
    (hqmax : s.question_count < s.max_questions)
    (hkeys : d.metrics.map Prod.fst = s.weighted_metrics.map WeightedMetric.metric_name)
    (hnd : (s.weighted_metrics.map WeightedMetric.metric_name).Nodup)
    (hflat : ∀ q ∈ s.flat_scores, q.1 ∈ s.weighted_metrics.map WeightedMetric.metric_name)
    (hndflat : (dkeys s.flat_scores).Nodup)
    (hge : ∀ p ∈ d.metrics, (4 : ℚ) ≤ p.2) :
    (run_process_turn fx a dur s).interview_complete = true ∧
    (run_process_turn fx a dur s).completion_reason = some "All performance targets achieved" ∧
    (run_process_turn fx a dur s).question_count = s.question_count ∧
    (run_process_turn fx a dur s).current_question = s.current_question := by
  have ha' : ¬ a = "" := ha
  simp only [run_process_turn]
  rw [if_neg ha', hfx]
  set s1 := process_candidate_answer a dur fx.now s with hs1
  have h1ne : ¬ s1.conversation_history = [] := by
    rw [hs1]
    simp [process_candidate_answer]
  have hs2eq : score_answer (ScoringReply.parsed d) s1 = apply_scoring_data s1 d := by
    simp [score_answer, h1ne]
  rw [hs2eq]
  set s2 := apply_scoring_data s1 d with hs2
  have h2flat : s2.flat_scores =
      d.metrics.foldl (fun fs p => dset fs p.1 (normalize_score p.2)) s.flat_scores := by
    rw [hs2, apply_scoring_data_flat]
    rfl
  have h2qc : s2.question_count = s.question_count := rfl
  have h2max : s2.max_questions = s.max_questions := rfl
  have h2cq : s2.current_question = s.current_question := rfl
  have h2wm : s2.weighted_metrics.length = s.weighted_metrics.length := by
    rw [hs2]
    simp only [apply_scoring_data, update_state_metrics, List.length_map]
    rfl
  have hdk : (d.metrics.map Prod.fst).Nodup := by rw [hkeys]; exact hnd
  have hg75 : ∀ (o : Option ℚ), ∀ p ∈ d.metrics,
      (75 : ℚ) ≤ (fun (_ : Option ℚ) x => normalize_score x) o p.2 := by
    intro o p hp
    have h4p := hge p hp
    show (75 : ℚ) ≤ normalize_score p.2
    have hrw : normalize_score p.2 = 25 * (p.2 - 1) := by
      unfold normalize_score; ring
    rw [hrw]
    linarith
  have hF1 : ∀ q ∈ s2.flat_scores, (75 : ℚ) ≤ q.2 := by
    rw [h2flat]
    exact foldl_dset_value_bound (fun _ x => normalize_score x) (fun v => (75 : ℚ) ≤ v)
      d.metrics s.flat_scores hg75
      (fun q hq => Or.inl (by rw [hkeys]; exact hflat q hq)) hndflat
  have hsub : s.weighted_metrics.map WeightedMetric.metric_name ⊆ dkeys s2.flat_scores := by
    intro m hm
    rw [← hkeys] at hm
    obtain ⟨⟨pa, pb⟩, hp, hpe⟩ := List.mem_map.mp hm
    dsimp at hpe
    subst hpe
    have hlook := foldl_dset_dget (β := ℚ) (γ := ℚ) (fun _ x => normalize_score x)
      d.metrics s.flat_scores pa pb hp hdk
    rw [← h2flat] at hlook
    exact dget_some_mem_dkeys _ _ _ hlook
  have hlen : s.weighted_metrics.length ≤ s2.flat_scores.length := by
    calc s.weighted_metrics.length
        = (s.weighted_metrics.map WeightedMetric.metric_name).length :=
          (List.length_map _ _).symm
      _ ≤ (dkeys s2.flat_scores).length := nodup_subset_length_le _ _ hnd hsub
      _ = s2.flat_scores.length := List.length_map _ _
  have hne2 : s2.flat_scores ≠ [] := by
    intro hemp
    rw [hemp, hnum] at hlen
    simp at hlen
  set s3 := generate_feedback fx.feedback s2 with hs3
  have h3 := generate_feedback_preserves fx.feedback s2
  have hqc3 : s3.question_count = s.question_count := h3.1.trans h2qc
  have hmax3 : s3.max_questions = s.max_questions := h3.2.1.trans h2max
  have hcq3 : s3.current_question = s.current_question := h3.2.2.2.2.1.trans h2cq
  have hflat3 : s3.flat_scores = s2.flat_scores := h3.2.2.2.2.2.1
  have hwm3 : s3.weighted_metrics = s2.weighted_metrics := h3.2.2.2.2.2.2.1
  have hv : completion_verdict s3 = some "All performance targets achieved" := by
    unfold completion_verdict
    rw [if_neg (by rw [hqc3, hmax3]; exact not_le.mpr hqmax)]
    rw [if_pos ⟨by rw [hflat3]; exact hne2,
      by rw [hflat3, hwm3, h2wm]; exact hlen⟩]
    rw [if_pos ⟨by rw [hflat3]; exact hF1, by rw [hqc3]; exact hq4⟩]
  have hcc := check_completion_of_verdict s3 _ hv
  have hccp := check_completion_preserves s3
  rw [if_neg (by rw [hcc.1]; simp)]
  have hgfs := generate_final_summary_preserves fx.summary (check_completion s3)
  refine ⟨?_, ?_, ?_, ?_⟩
  · rw [hgfs.2.1, hcc.1]
  · rw [hgfs.2.2.1, hcc.2.1]
  · rw [hgfs.1, hccp.1, hqc3]
  · rw [hgfs.2.2.2.1, hccp.2.2.1, hcq3]

/-- Four configured metrics at question 4 of 10, nothing scored yet. -/
def c3_state : InterviewState :=
  { base_session with
      weighted_metrics := [test_metric "a", test_metric "b", test_metric "c", test_metric "d"]
      question_count := 4
      current_question := "q4" }

/-- A parsed scoring result covering all four metrics with raw scores ≥ 4. -/
def c3_data : ScoringData :=
  { overall_score := some 85
    metrics := [("a", 4), ("b", 5), ("c", 4), ("d", 4)]
    granular_justifications := []
    turn_feedback := some "well done" }

def c3_fx : TurnEffects :=
  { scoring := ScoringReply.parsed c3_data
    feedback := LLMReply.returned "fb"
    pick := fun l => l.headI.1
    question := LLMReply.returned "q5"
    summary := LLMReply.returned "final"
    now := "t4" }

/-- Instantiation of the C3 theorem on the concrete four-metric session. -/
theorem c3_rubric_saturation_ends_interview_witness :
    ("answer four" ≠ "" ∧
      c3_fx.scoring = ScoringReply.parsed c3_data ∧
      c3_state.weighted_metrics.length = 4 ∧
      (4 : ℤ) ≤ c3_state.question_count ∧
      c3_state.question_count < c3_state.max_questions ∧
      c3_data.metrics.map Prod.fst = c3_state.weighted_metrics.map WeightedMetric.metric_name ∧
      (c3_state.weighted_metrics.map WeightedMetric.metric_name).Nodup ∧
      (∀ q ∈ c3_state.flat_scores,
        q.1 ∈ c3_state.weighted_metrics.map WeightedMetric.metric_name) ∧
      (dkeys c3_state.flat_scores).Nodup ∧
      (∀ p ∈ c3_data.metrics, (4 : ℚ) ≤ p.2)) ∧
    ((run_process_turn c3_fx "answer four" none c3_state).interview_complete = true ∧
      (run_process_turn c3_fx "answer four" none c3_state).completion_reason =
        some "All performance targets achieved" ∧
      (run_process_turn c3_fx "answer four" none c3_state).question_count =
        c3_state.question_count ∧
      (run_process_turn c3_fx "answer four" none c3_state).current_question =
        c3_state.current_question) :=
  ⟨⟨by decide, rfl, by decide, by decide, by decide, by decide, by decide,
      by decide, by decide, by decide⟩,
    c3_rubric_saturation_ends_interview c3_state c3_data c3_fx "answer four" none
      (by decide) rfl (by decide) (by decide) (by decide) (by decide) (by decide)
      (by decide) (by decide) (by decide)⟩

end Elevice
